import Mathlib

/-!
Shallow embedding of the chat-orchestration logic of the local-home-helper
Flask application (src/app.py, src/database.py, src/config.py).

Python strings are modelled as lists of characters (`PyStr`); outbound HTTP
calls and store calls are modelled by an environment value recording what each
call would return (or that it would raise); Flask session state is an explicit
record threaded through each handler.
-/

/-- Python strings, modelled as lists of characters. -/
abbrev PyStr := List Char

/-- Python str.strip(): remove leading and trailing whitespace. -/
def pyStrip (s : PyStr) : PyStr :=
  ((s.dropWhile Char.isWhitespace).reverse.dropWhile Char.isWhitespace).reverse

/-- Python lst[-k:] for a non-negative k: the last k elements, except that
lst[-0:] is lst[0:], the whole list.  Used for
chat_history[-Config.CHAT_HISTORY_LIMIT * 2:] (app.py line 126). -/
def pyTakeLast {α : Type} (lst : List α) (k : Nat) : List α :=
  if k = 0 then lst else lst.drop (lst.length - k)

/-- One role/content pair, as the dicts of the form
\x7b'role': r, 'content': c\x7d that populate session['chat_history'] and the
outbound message list in app.py. -/
structure Msg where
  role : PyStr
  content : PyStr
deriving Repr, DecidableEq

/-- Flask session state after initialize_session (app.py lines 22-30):
session['chat_history'], session['current_model'], session['current_chat_id']. -/
structure SessionState where
  chat_history : List Msg
  current_model : PyStr
  current_chat_id : Option Nat
deriving Repr, DecidableEq

/-- Result of a requests.get on OLLAMA_BASE_URL/api/tags: an HTTP response
with its status code, or a raised requests exception. -/
inductive TagsResult where
  | status (code : Nat)
  | transportError
deriving Repr, DecidableEq

/-- Result of the model-listing call together with the extraction
[model_info['name'] for model_info in models_response.json().get('models', [])]
(app.py lines 67-68): the extracted name list, or an exception raised anywhere
along the way (the surrounding except catches every Exception). -/
inductive ListingResult where
  | ok (names : List PyStr)
  | exn
deriving Repr, DecidableEq

/-- Result of the completion call requests.post(OLLAMA_BASE_URL/api/chat, ...)
followed by parsing (app.py lines 103-115).  `response code body` is an HTTP
response with status_code = code; body is what .json() would give: none if
.json() raises, some content if it parses with content =
message.content field of the parsed body (none when that field is absent). -/
inductive CompletionResult where
  | transportError
  | response (code : Nat) (body : Option (Option PyStr))
deriving Repr, DecidableEq

/-- The external world one /api/chat request interacts with: results of the
outbound HTTP calls and of the store writes the handler may attempt, in
program order.  createChat is some id when db.create_chat succeeds returning
id, none when it raises; addUserMsg / addAssistantMsg are true when the
corresponding db.add_message call succeeds, false when it raises. -/
structure ChatEnv where
  probe : TagsResult
  listing : ListingResult
  completion : CompletionResult
  createChat : Option Nat
  addUserMsg : Bool
  addAssistantMsg : Bool
deriving Repr, DecidableEq

/-- The error message built at app.py lines 71-73:
f'Model \x7bmodel\x7d is not available. Available models: \x7b", ".join(available_models)\x7d'. -/
def modelNotFoundMessage (model : PyStr) (available : List PyStr) : PyStr :=
  "Model ".data ++ model ++ " is not available. Available models: ".data
    ++ List.intercalate ", ".data available

/-- The JSON result of the /api/chat handler, one constructor per distinct
return site of app.py lines 43-161; httpStatus below gives the HTTP status
each one is returned with. -/
inductive ChatOutcome where
  | ok (response : PyStr) (model : PyStr)
  | emptyMessage
  | ollamaNotRunning
  | ollamaUnreachable
  | modelNotFound (message : PyStr)
  | modelCheckError
  | ollamaApiError
  | internalError
deriving Repr, DecidableEq

/-- The HTTP status code attached to each /api/chat return site in app.py. -/
def ChatOutcome.httpStatus : ChatOutcome → Nat
  | .ok _ _ => 200
  | .emptyMessage => 400
  | .ollamaNotRunning => 503
  | .ollamaUnreachable => 503
  | .modelNotFound _ => 404
  | .modelCheckError => 500
  | .ollamaApiError => 500
  | .internalError => 500

/-- One store write performed successfully by the /api/chat handler. -/
inductive StoreOp where
  | createChat (chatId : Nat) (title : PyStr) (model : PyStr)
  | addMessage (chatId : Nat) (role : PyStr) (content : PyStr)
deriving Repr, DecidableEq

/-- Title derivation for a fresh chat (app.py line 142):
user_message[:50] + "..." if len(user_message) > 50 else user_message. -/
def deriveTitle (user_message : PyStr) : PyStr :=
  if user_message.length > 50 then user_message.take 50 ++ "...".data
  else user_message

/-- The rolling-history update of app.py lines 117-126: extend the history
with the user and assistant entries, then, when the result is longer than
CHAT_HISTORY_LIMIT * 2, keep chat_history[-CHAT_HISTORY_LIMIT * 2:]. -/
def newHistory (limit : Nat) (old : List Msg) (user_message ai_message : PyStr) :
    List Msg :=
  let h0 := old ++ [⟨"user".data, user_message⟩, ⟨"assistant".data, ai_message⟩]
  if h0.length > limit * 2 then pyTakeLast h0 (limit * 2) else h0

/-- The store mirroring of app.py lines 130-151, run after the reply exists:
with an active chat, try to append both messages to it; with none, create a
chat titled from the user message, mark it active, then append both messages.
Every exception is caught and only logged.  Returns the session's
current_chat_id afterwards and the store writes that completed, in order. -/
def persistExchange (env : ChatEnv) (cur : Option Nat)
    (user_message ai_message model : PyStr) : Option Nat × List StoreOp :=
  match cur with
  | some cid =>
    if env.addUserMsg then
      if env.addAssistantMsg then
        (some cid, [.addMessage cid "user".data user_message,
                    .addMessage cid "assistant".data ai_message])
      else (some cid, [.addMessage cid "user".data user_message])
    else (some cid, [])
  | none =>
    match env.createChat with
    | none => (none, [])
    | some chat_id =>
      let title := deriveTitle user_message
      if env.addUserMsg then
        if env.addAssistantMsg then
          (some chat_id, [.createChat chat_id title model,
                          .addMessage chat_id "user".data user_message,
                          .addMessage chat_id "assistant".data ai_message])
        else (some chat_id, [.createChat chat_id title model,
                             .addMessage chat_id "user".data user_message])
      else (some chat_id, [.createChat chat_id title model])

/-- The /api/chat handler (app.py lines 43-161) for an initialized session.
message? and model? are the optional fields of the request JSON body, limit is
Config.CHAT_HISTORY_LIMIT.  Returns the handler's outcome, the session state
after the request, and the list of store writes that completed, in order. -/
def chat (limit : Nat) (env : ChatEnv) (s : SessionState)
    (message? : Option PyStr) (model? : Option PyStr) :
    ChatOutcome × SessionState × List StoreOp :=
  let user_message := pyStrip (message?.getD [])
  let model := model?.getD s.current_model
  if user_message = [] then
    (.emptyMessage, s, [])
  else
    -- session['current_model'] = model (line 55) runs before the probe
    let s1 : SessionState := ⟨s.chat_history, model, s.current_chat_id⟩
    match env.probe with
    | .transportError => (.ollamaUnreachable, s1, [])
    | .status code =>
      if code ≠ 200 then (.ollamaNotRunning, s1, [])
      else
        match env.listing with
        | .exn => (.modelCheckError, s1, [])
        | .ok available_models =>
          if model ∉ available_models then
            (.modelNotFound (modelNotFoundMessage model available_models), s1, [])
          else
            match env.completion with
            | .transportError => (.internalError, s1, [])
            | .response rcode body =>
              if rcode ≠ 200 then (.ollamaApiError, s1, [])
              else
                match body with
                | none => (.internalError, s1, [])
                | some content =>
                  let ai_message := content.getD "No response from model".data
                  let h1 := newHistory limit s1.chat_history user_message ai_message
                  let saved := persistExchange env s1.current_chat_id
                    user_message ai_message model
                  (.ok ai_message model, ⟨h1, model, saved.1⟩, saved.2)

/-- One message row of a stored chat as returned by ChatDatabase.get_chat
(role, content); the enclosing list is in chronological (timestamp ASC)
order. -/
structure StoredMsg where
  role : PyStr
  content : PyStr
deriving Repr, DecidableEq

/-- One row of the chats table together with its messages in chronological
order. -/
structure StoredChat where
  id : Nat
  title : PyStr
  model : PyStr
  messages : List StoredMsg
deriving Repr, DecidableEq

/-- The persistent store contents: the chats it holds. -/
abbrev Store := List StoredChat

/-- ChatDatabase.get_chat (database.py lines 137-177): the chat with the given
id together with its messages ordered by timestamp ascending, or none when no
such chat exists.  The except branch at lines 175-177 also returns None when
the read raises a storage exception (exn), indistinguishable from absence. -/
def dbGetChat (exn : Bool) (store : Store) (chat_id : Nat) : Option StoredChat :=
  if exn then none else store.find? (fun c => c.id == chat_id)

/-- ChatDatabase.update_chat_title (database.py lines 179-196): updates every
matching row and returns True unless an exception is raised (exn); the flag
does not depend on whether any row matched. -/
def dbUpdateChatTitle (exn : Bool) (store : Store) (chat_id : Nat)
    (new_title : PyStr) : Bool × Store :=
  if exn then (false, store)
  else (true, store.map (fun c =>
    if c.id == chat_id then ⟨c.id, new_title, c.model, c.messages⟩ else c))

/-- ChatDatabase.delete_chat (database.py lines 198-216): deletes the chat's
messages and the chat row and returns True unless an exception is raised
(exn); the flag does not depend on whether any row matched. -/
def dbDeleteChat (exn : Bool) (store : Store) (chat_id : Nat) : Bool × Store :=
  if exn then (false, store)
  else (true, store.filter (fun c => c.id != chat_id))

/-- The JSON result of GET /api/chats/<chat_id>. -/
inductive GetChatOutcome where
  | ok (chat : StoredChat)
  | notFound
deriving Repr, DecidableEq

/-- The GET /api/chats/<chat_id> handler (app.py lines 220-245): 404 when
db.get_chat returns None (chat absent, or the read raised and the except
branch swallowed it), otherwise point the session at the chat and replace
session['chat_history'] with the chat's messages as role/content pairs. -/
def get_chat (exn : Bool) (store : Store) (s : SessionState) (chat_id : Nat) :
    GetChatOutcome × SessionState :=
  match dbGetChat exn store chat_id with
  | none => (.notFound, s)
  | some c =>
    (.ok c, ⟨c.messages.map (fun m => ⟨m.role, m.content⟩),
             s.current_model, some chat_id⟩)

/-- The JSON result of PUT /api/chats/<chat_id>. -/
inductive UpdateChatOutcome where
  | ok
  | emptyTitle
  | failed
deriving Repr, DecidableEq

/-- The PUT /api/chats/<chat_id> handler (app.py lines 247-264): 400 on an
empty post-strip title, otherwise db.update_chat_title's flag decides between
200 and 500. -/
def update_chat (exn : Bool) (store : Store) (chat_id : Nat)
    (title? : Option PyStr) : UpdateChatOutcome × Store :=
  let new_title := pyStrip (title?.getD [])
  if new_title = [] then (.emptyTitle, store)
  else
    match dbUpdateChatTitle exn store chat_id new_title with
    | (true, st) => (.ok, st)
    | (false, st) => (.failed, st)

/-- The JSON result of DELETE /api/chats/<chat_id>. -/
inductive DeleteChatOutcome where
  | ok
  | failed
deriving Repr, DecidableEq

/-- The DELETE /api/chats/<chat_id> handler (app.py lines 266-282).  dbOk is
the success flag returned by db.delete_chat; on success, the session is reset
exactly when the deleted chat is the session's current chat. -/
def delete_chat (dbOk : Bool) (s : SessionState) (chat_id : Nat) :
    DeleteChatOutcome × SessionState :=
  if dbOk then
    if s.current_chat_id == some chat_id then
      (.ok, ⟨[], s.current_model, none⟩)
    else (.ok, s)
  else (.failed, s)

/-- The JSON body of GET /api/health together with its HTTP status (app.py
lines 284-307).  current_model is none when the body has no current_model
field; err is some () when the body carries the error field str(e). -/
structure HealthResponse where
  status : PyStr
  ollama : PyStr
  current_model : Option PyStr
  err : Option Unit
  httpStatus : Nat
deriving Repr, DecidableEq

/-- The GET /api/health handler (app.py lines 284-307). -/
def health_check (probe : TagsResult) (s : SessionState) : HealthResponse :=
  match probe with
  | .status code =>
    if code == 200 then
      ⟨"healthy".data, "running".data, some s.current_model, none, 200⟩
    else
      ⟨"unhealthy".data, "not responding".data, some s.current_model, none, 503⟩
  | .transportError =>
      ⟨"unhealthy".data, "not accessible".data, none, some (), 503⟩

/-! Fixtures used by the concrete witnesses and counterexamples. -/

/-- A fixture session: empty history, selected model "a", no active chat. -/
def sessionA : SessionState := ⟨[], "a".data, none⟩

/-- A fixture environment where every outbound call succeeds and the store
accepts every write; the listing holds the single model "m". -/
def envHappy : ChatEnv :=
  ⟨.status 200, .ok ["m".data], .response 200 (some (some "ok".data)), some 7, true, true⟩

/-- A fixture environment where inference succeeds but every store write
raises. -/
def envStoreDown : ChatEnv :=
  ⟨.status 200, .ok ["m".data], .response 200 (some (some "ok".data)), none, false, false⟩

/-- A fixture environment where the availability probe raises. -/
def envDown : ChatEnv := ⟨.transportError, .exn, .transportError, none, false, false⟩

/-- A fixture environment where the probe succeeds and the listing raises. -/
def envListingExn : ChatEnv := ⟨.status 200, .exn, .transportError, none, false, false⟩

/-! Helper lemmas shared by the claim theorems. -/

/-- For a positive limit, newHistory is the extended history with entries
dropped from the oldest end so that at most limit * 2 remain. -/
theorem newHistory_spec (limit : Nat) (hlim : 0 < limit) (old : List Msg)
    (u a : PyStr) :
    newHistory limit old u a
      = (old ++ [Msg.mk "user".data u, Msg.mk "assistant".data a]).drop
          (old.length + 2 - limit * 2) ∧
    (newHistory limit old u a).length ≤ limit * 2 := by
  unfold newHistory
  set h0 := old ++ [Msg.mk "user".data u, Msg.mk "assistant".data a] with hh
  have hlen : h0.length = old.length + 2 := by simp [hh]
  by_cases hc : h0.length > limit * 2
  · have hk : ¬ limit * 2 = 0 := by omega
    rw [if_pos hc]
    unfold pyTakeLast
    rw [if_neg hk]
    refine ⟨by rw [hlen], ?_⟩
    simp only [List.length_drop]
    omega
  · rw [if_neg hc]
    have h₀ : old.length + 2 - limit * 2 = 0 := by omega
    rw [h₀, List.drop_zero]
    exact ⟨rfl, by omega⟩

/-- With no active chat and a successful db.create_chat, the first store write
is the chat creation, titled from the user message. -/
theorem persistExchange_fresh_head (env : ChatEnv) (cid : Nat)
    (hcc : env.createChat = some cid) (um ai model : PyStr) :
    ((persistExchange env none um ai model).2).head?
      = some (.createChat cid (deriveTitle um) model) := by
  rcases env with ⟨p, L, C, c1, b1, b2⟩
  simp only at hcc
  subst hcc
  cases b1 <;> cases b2 <;> simp [persistExchange]

/-! C1 -/

/-- C1 counterexample: with CHAT_HISTORY_LIMIT = 0 a successful submit leaves
the rolling history with 2 entries, exceeding 2 x 0 — the Python slice
chat_history[-0:] keeps the whole list instead of truncating it to length 0. -/
theorem chat_zero_limit_exceeds_cap :
    (chat 0 envStoreDown sessionA (some "hi".data) (some "m".data)).1
      = .ok "ok".data "m".data ∧
    ¬ ((chat 0 envStoreDown sessionA (some "hi".data) (some "m".data)).2.1.chat_history.length
        ≤ 0 * 2) := by decide

/-- C1 (amended to positive history limits): for every positive limit, a
submit with a reachable server, a listed model and a successful completion
returns a reply, and the new rolling history is the old one extended by the
user entry then the assistant entry, truncated from the oldest end, its
length at most limit * 2. -/
theorem chat_success_extends_history
    (limit : Nat) (names : List PyStr) (content : Option PyStr)
    (cc : Option Nat) (au aa : Bool) (s : SessionState)
    (message? model? : Option PyStr)
    (hlim : 0 < limit)
    (hmsg : pyStrip (message?.getD []) ≠ [])
    (hm : model?.getD s.current_model ∈ names) :
    ∃ reply,
      (chat limit ⟨.status 200, .ok names, .response 200 (some content), cc, au, aa⟩
          s message? model?).1
        = .ok reply (model?.getD s.current_model) ∧
      (chat limit ⟨.status 200, .ok names, .response 200 (some content), cc, au, aa⟩
          s message? model?).2.1.chat_history
        = (s.chat_history ++ [Msg.mk "user".data (pyStrip (message?.getD [])),
            Msg.mk "assistant".data reply]).drop
            (s.chat_history.length + 2 - limit * 2) ∧
      (chat limit ⟨.status 200, .ok names, .response 200 (some content), cc, au, aa⟩
          s message? model?).2.1.chat_history.length ≤ limit * 2 := by
  have key := newHistory_spec limit hlim s.chat_history (pyStrip (message?.getD []))
    (content.getD "No response from model".data)
  refine ⟨content.getD "No response from model".data, ?_, ?_, ?_⟩
  · simp [chat, hmsg, hm]
  · simp [chat, hmsg, hm, key.1]
  · simp [chat, hmsg, hm, key.2]

/-- C1 witness: the amended theorem applied at limit 1, model "m", message
"hi", on an empty session. -/
theorem chat_success_extends_history_witness :
    (0 < 1 ∧ pyStrip ((some "hi".data).getD []) ≠ [] ∧
      (some "m".data).getD sessionA.current_model ∈ [("m".data : PyStr)]) ∧
    (∃ reply,
      (chat 1 ⟨.status 200, .ok ["m".data], .response 200 (some (some "ok".data)), some 7, true, true⟩
          sessionA (some "hi".data) (some "m".data)).1
        = .ok reply ((some "m".data).getD sessionA.current_model) ∧
      (chat 1 ⟨.status 200, .ok ["m".data], .response 200 (some (some "ok".data)), some 7, true, true⟩
          sessionA (some "hi".data) (some "m".data)).2.1.chat_history
        = (sessionA.chat_history ++ [Msg.mk "user".data (pyStrip ((some "hi".data).getD [])),
            Msg.mk "assistant".data reply]).drop
            (sessionA.chat_history.length + 2 - 1 * 2) ∧
      (chat 1 ⟨.status 200, .ok ["m".data], .response 200 (some (some "ok".data)), some 7, true, true⟩
          sessionA (some "hi".data) (some "m".data)).2.1.chat_history.length ≤ 1 * 2) :=
  ⟨⟨by decide, by decide, by decide⟩,
   chat_success_extends_history 1 ["m".data] (some "ok".data) (some 7) true true
     sessionA (some "hi".data) (some "m".data) (by decide) (by decide) (by decide)⟩

/-! C2 -/

/-- C2 counterexample: a submit against an unreachable server with requested
model "b" different from the session's "a" returns the availability error, yet
the session is no longer what it was: its selected model has already been
changed (app.py line 55 runs before the probe). -/
theorem chat_unreachable_changed_session :
    ((chat 50 envDown sessionA (some "hi".data) (some "b".data)).1
      = .ollamaUnreachable) ∧
    (chat 50 envDown sessionA (some "hi".data) (some "b".data)).2.1 ≠ sessionA ∧
    (chat 50 envDown sessionA (some "hi".data) (some "b".data)).2.1.current_model
      = "b".data := by decide

/-- C2 (amended): a validation error leaves the whole session unchanged with
no store write; an availability error (probe non-200 or probe exception)
leaves the rolling history and active chat unchanged with no store write, but
the selected model has already been set to the requested model. -/
theorem chat_early_error_frame
    (limit : Nat) (env : ChatEnv) (s : SessionState)
    (message? model? : Option PyStr) :
    (pyStrip (message?.getD []) = [] →
      chat limit env s message? model? = (.emptyMessage, s, [])) ∧
    (pyStrip (message?.getD []) ≠ [] → env.probe = .transportError →
      chat limit env s message? model?
        = (.ollamaUnreachable,
           ⟨s.chat_history, model?.getD s.current_model, s.current_chat_id⟩, [])) ∧
    (∀ code, pyStrip (message?.getD []) ≠ [] → env.probe = .status code →
      code ≠ 200 →
      chat limit env s message? model?
        = (.ollamaNotRunning,
           ⟨s.chat_history, model?.getD s.current_model, s.current_chat_id⟩, [])) := by
  refine ⟨?_, ?_, ?_⟩
  · intro h
    simp [chat, h]
  · intro hmsg hp
    rcases env with ⟨p, L, C, c1, b1, b2⟩
    simp only at hp
    subst hp
    simp [chat, hmsg]
  · intro code hmsg hp hcode
    rcases env with ⟨p, L, C, c1, b1, b2⟩
    simp only at hp
    subst hp
    simp [chat, hmsg, hcode]

/-- C2 witness: the amended theorem applied to a blank message (validation)
and to an unreachable server (availability), on concrete sessions. -/
theorem chat_early_error_frame_witness :
    (chat 50 envDown sessionA (some "   ".data) (some "b".data)
      = (.emptyMessage, sessionA, [])) ∧
    (chat 50 envDown sessionA (some "hi".data) (some "b".data)
      = (.ollamaUnreachable,
         ⟨sessionA.chat_history, (some "b".data).getD sessionA.current_model,
          sessionA.current_chat_id⟩, [])) :=
  ⟨(chat_early_error_frame 50 envDown sessionA (some "   ".data) (some "b".data)).1
      (by decide),
   (chat_early_error_frame 50 envDown sessionA (some "hi".data) (some "b".data)).2.1
      (by decide) (by decide)⟩

/-! C3 -/

/-- C3 counterexample: with the probe answering 200 and the model-listing call
raising a transport error, the handler returns the generic model-check error
with HTTP 500, not ServiceUnavailable 503. -/
theorem chat_listing_failure_not_503 :
    ((chat 50 envListingExn sessionA (some "hi".data) none).1 = .modelCheckError) ∧
    ((chat 50 envListingExn sessionA (some "hi".data) none).1).httpStatus = 500 ∧
    ¬ (((chat 50 envListingExn sessionA (some "hi".data) none).1).httpStatus = 503) := by
  decide

/-- C3 (amended): a transport failure of the availability probe yields the
ServiceUnavailable outcome with HTTP 503, but a failure of the model-listing
call yields the model-check error with HTTP 500. -/
theorem chat_transport_failure_statuses
    (limit : Nat) (env : ChatEnv) (s : SessionState) (message? model? : Option PyStr)
    (hmsg : pyStrip (message?.getD []) ≠ []) :
    (env.probe = .transportError →
      (chat limit env s message? model?).1 = .ollamaUnreachable ∧
      ((chat limit env s message? model?).1).httpStatus = 503) ∧
    (env.probe = .status 200 → env.listing = .exn →
      (chat limit env s message? model?).1 = .modelCheckError ∧
      ((chat limit env s message? model?).1).httpStatus = 500) := by
  constructor
  · intro hp
    rcases env with ⟨p, L, C, c1, b1, b2⟩
    simp only at hp
    subst hp
    constructor <;> simp [chat, hmsg, ChatOutcome.httpStatus]
  · intro hp hl
    rcases env with ⟨p, L, C, c1, b1, b2⟩
    simp only at hp hl
    subst hp
    subst hl
    constructor <;> simp [chat, hmsg, ChatOutcome.httpStatus]

/-- C3 witness: both failure modes at concrete inputs. -/
theorem chat_transport_failure_statuses_witness :
    ((chat 50 envDown sessionA (some "hi".data) none).1 = .ollamaUnreachable ∧
      ((chat 50 envDown sessionA (some "hi".data) none).1).httpStatus = 503) ∧
    ((chat 50 envListingExn sessionA (some "hi".data) none).1 = .modelCheckError ∧
      ((chat 50 envListingExn sessionA (some "hi".data) none).1).httpStatus = 500) :=
  ⟨(chat_transport_failure_statuses 50 envDown sessionA (some "hi".data) none
      (by decide)).1 rfl,
   (chat_transport_failure_statuses 50 envListingExn sessionA (some "hi".data) none
      (by decide)).2 rfl rfl⟩

/-! C4 -/

/-- C4: once the completion call has produced a reply (HTTP 200, parsed body),
the handler returns that reply with HTTP 200 whatever the store does: for
every combination of create_chat and add_message outcomes, including every
write failing, the result is unchanged. -/
theorem chat_reply_survives_store_failure
    (limit : Nat) (names : List PyStr) (content : Option PyStr)
    (s : SessionState) (message? model? : Option PyStr)
    (hmsg : pyStrip (message?.getD []) ≠ [])
    (hm : model?.getD s.current_model ∈ names) :
    ∀ (cc : Option Nat) (au aa : Bool),
      (chat limit ⟨.status 200, .ok names, .response 200 (some content), cc, au, aa⟩
          s message? model?).1
        = .ok (content.getD "No response from model".data)
            (model?.getD s.current_model) ∧
      ((chat limit ⟨.status 200, .ok names, .response 200 (some content), cc, au, aa⟩
          s message? model?).1).httpStatus = 200 := by
  intro cc au aa
  constructor <;> simp [chat, hmsg, hm, ChatOutcome.httpStatus]

/-- C4 witness: a concrete submit where chat creation and both message writes
all fail still returns the reply with HTTP 200. -/
theorem chat_reply_survives_store_failure_witness :
    (chat 50 ⟨.status 200, .ok ["m".data], .response 200 (some (some "ok".data)), none, false, false⟩
        sessionA (some "hi".data) (some "m".data)).1
      = .ok ((some "ok".data).getD "No response from model".data)
          ((some "m".data).getD sessionA.current_model) ∧
    ((chat 50 ⟨.status 200, .ok ["m".data], .response 200 (some (some "ok".data)), none, false, false⟩
        sessionA (some "hi".data) (some "m".data)).1).httpStatus = 200 :=
  chat_reply_survives_store_failure 50 ["m".data] (some "ok".data) sessionA
    (some "hi".data) (some "m".data) (by decide) (by decide) none false false

/-! C5 -/

/-- C5: on a first submit (no active chat) whose create_chat succeeds, the
store's first write creates the chat with the requested model and a title that
is the user message itself when it has at most 50 characters, and its first 50
characters followed by the ellipsis marker when longer. -/
theorem chat_first_submit_title
    (limit : Nat) (names : List PyStr) (content : Option PyStr)
    (cid : Nat) (au aa : Bool) (s : SessionState) (message? model? : Option PyStr)
    (hmsg : pyStrip (message?.getD []) ≠ [])
    (hm : model?.getD s.current_model ∈ names)
    (hchat : s.current_chat_id = none) :
    ∃ title,
      ((chat limit ⟨.status 200, .ok names, .response 200 (some content), some cid, au, aa⟩
          s message? model?).2.2).head?
        = some (.createChat cid title (model?.getD s.current_model)) ∧
      ((pyStrip (message?.getD [])).length ≤ 50 → title = pyStrip (message?.getD [])) ∧
      (50 < (pyStrip (message?.getD [])).length →
        title = (pyStrip (message?.getD [])).take 50 ++ "...".data ∧
        ((pyStrip (message?.getD [])).take 50).length = 50) := by
  refine ⟨deriveTitle (pyStrip (message?.getD [])), ?_, ?_, ?_⟩
  · have hp := persistExchange_fresh_head
      ⟨.status 200, .ok names, .response 200 (some content), some cid, au, aa⟩ cid rfl
      (pyStrip (message?.getD [])) (content.getD "No response from model".data)
      (model?.getD s.current_model)
    simp [chat, hmsg, hm, hchat, hp]
  · intro hle
    unfold deriveTitle
    rw [if_neg (by omega)]
  · intro hgt
    unfold deriveTitle
    rw [if_pos (by omega)]
    refine ⟨rfl, ?_⟩
    simp only [List.length_take]
    omega

/-- C5 witness: the theorem applied to a 60-character and to a 40-character
first message; the 60-character title is the first 50 characters plus the
marker, the 40-character title is the message itself. -/
theorem chat_first_submit_title_witness :
    (∃ title,
      ((chat 50 ⟨.status 200, .ok ["m".data], .response 200 (some (some "ok".data)), some 3, true, true⟩
          sessionA
          (some "012345678901234567890123456789012345678901234567890123456789".data)
          (some "m".data)).2.2).head?
        = some (.createChat 3 title ((some "m".data).getD sessionA.current_model)) ∧
      ((pyStrip ((some "012345678901234567890123456789012345678901234567890123456789".data).getD [])).length ≤ 50 →
        title = pyStrip ((some "012345678901234567890123456789012345678901234567890123456789".data).getD [])) ∧
      (50 < (pyStrip ((some "012345678901234567890123456789012345678901234567890123456789".data).getD [])).length →
        title = (pyStrip ((some "012345678901234567890123456789012345678901234567890123456789".data).getD [])).take 50
            ++ "...".data ∧
        ((pyStrip ((some "012345678901234567890123456789012345678901234567890123456789".data).getD [])).take 50).length = 50)) ∧
    (∃ title,
      ((chat 50 ⟨.status 200, .ok ["m".data], .response 200 (some (some "ok".data)), some 4, true, true⟩
          sessionA
          (some "0123456789012345678901234567890123456789".data)
          (some "m".data)).2.2).head?
        = some (.createChat 4 title ((some "m".data).getD sessionA.current_model)) ∧
      ((pyStrip ((some "0123456789012345678901234567890123456789".data).getD [])).length ≤ 50 →
        title = pyStrip ((some "0123456789012345678901234567890123456789".data).getD [])) ∧
      (50 < (pyStrip ((some "0123456789012345678901234567890123456789".data).getD [])).length →
        title = (pyStrip ((some "0123456789012345678901234567890123456789".data).getD [])).take 50 ++ "...".data ∧
        ((pyStrip ((some "0123456789012345678901234567890123456789".data).getD [])).take 50).length = 50)) :=
  ⟨chat_first_submit_title 50 ["m".data] (some "ok".data) 3 true true sessionA
      (some "012345678901234567890123456789012345678901234567890123456789".data)
      (some "m".data) (by decide) (by decide) (by decide),
   chat_first_submit_title 50 ["m".data] (some "ok".data) 4 true true sessionA
      (some "0123456789012345678901234567890123456789".data)
      (some "m".data) (by decide) (by decide) (by decide)⟩

/-! C6 -/

/-- C6: when the requested model is absent from the listing, the handler fails
with the model-not-found outcome (HTTP 404) whose message is built from
exactly the list of models the listing returned. -/
theorem chat_model_not_found_lists_models
    (limit : Nat) (env : ChatEnv) (names : List PyStr) (s : SessionState)
    (message? model? : Option PyStr)
    (hmsg : pyStrip (message?.getD []) ≠ [])
    (hprobe : env.probe = .status 200)
    (hlist : env.listing = .ok names)
    (hm : model?.getD s.current_model ∉ names) :
    (chat limit env s message? model?).1
      = .modelNotFound
          (modelNotFoundMessage (model?.getD s.current_model) names) ∧
    ((chat limit env s message? model?).1).httpStatus = 404 := by
  rcases env with ⟨p, L, C, c1, b1, b2⟩
  simp only at hprobe hlist
  subst hprobe
  subst hlist
  constructor <;> simp [chat, hmsg, hm, ChatOutcome.httpStatus]

/-- C6 witness: requesting "b" when the listing holds exactly "m" and "n"
yields the 404 outcome whose message enumerates "m" and "n". -/
theorem chat_model_not_found_lists_models_witness :
    (chat 50 ⟨.status 200, .ok ["m".data, "n".data], .transportError, none, false, false⟩
        sessionA (some "hi".data) (some "b".data)).1
      = .modelNotFound
          (modelNotFoundMessage ((some "b".data).getD sessionA.current_model)
            ["m".data, "n".data]) ∧
    ((chat 50 ⟨.status 200, .ok ["m".data, "n".data], .transportError, none, false, false⟩
        sessionA (some "hi".data) (some "b".data)).1).httpStatus = 404 :=
  chat_model_not_found_lists_models 50
    ⟨.status 200, .ok ["m".data, "n".data], .transportError, none, false, false⟩
    ["m".data, "n".data] sessionA (some "hi".data) (some "b".data)
    (by decide) rfl rfl (by decide)

/-! C7 -/

/-- C7 counterexample: chat 1 exists in the store, yet when the store read
raises (the except branch of database.py lines 175-177 returns None) the
handler answers not-found and leaves the session exactly as it was — the
existing chat is neither installed nor activated. -/
theorem get_chat_existing_can_miss :
    (∃ c ∈ ([⟨1, "t".data, "m".data, [⟨"user".data, "q".data⟩]⟩] : Store),
      c.id = 1) ∧
    get_chat true [⟨1, "t".data, "m".data, [⟨"user".data, "q".data⟩]⟩]
      sessionA 1 = (.notFound, sessionA) ∧
    ¬ ((get_chat true [⟨1, "t".data, "m".data, [⟨"user".data, "q".data⟩]⟩]
        sessionA 1).2.current_chat_id = some 1) := by decide

/-- C7 (amended): loading a chat returns not-found and leaves the session
untouched when no stored chat has the requested id, and likewise when the
store read raises (db.get_chat swallows the exception and returns None); when
the chat exists and no exception occurs, the handler replaces the rolling
history with exactly that chat's stored role/content pairs in order (however
many there are), marks the chat active and keeps the selected model. -/
theorem get_chat_load_spec (exn : Bool) (store : Store) (s : SessionState)
    (chat_id : Nat) :
    ((∀ c ∈ store, c.id ≠ chat_id) →
      get_chat exn store s chat_id = (.notFound, s)) ∧
    (exn = true → get_chat exn store s chat_id = (.notFound, s)) ∧
    (∀ c, dbGetChat false store chat_id = some c →
      (get_chat false store s chat_id).1 = .ok c ∧
      (get_chat false store s chat_id).2
        = ⟨c.messages.map (fun m => Msg.mk m.role m.content),
           s.current_model, some chat_id⟩ ∧
      (get_chat false store s chat_id).2.chat_history.length = c.messages.length) := by
  refine ⟨?_, ?_, ?_⟩
  · intro h
    have hn : dbGetChat exn store chat_id = none := by
      unfold dbGetChat
      cases exn
      · show store.find? (fun c => c.id == chat_id) = none
        apply List.find?_eq_none.mpr
        intro c hc
        simpa using h c hc
      · rfl
    simp [get_chat, hn]
  · intro h
    subst h
    simp [get_chat, dbGetChat]
  · intro c hc
    refine ⟨?_, ?_, ?_⟩ <;> simp [get_chat, hc]

/-- C7 witness: on a store holding one two-message chat with id 1, loading
id 2 without an exception is not-found with the session intact, loading id 1
under an exception is also not-found with the session intact, and loading
id 1 without an exception installs both stored messages and activates the
chat. -/
theorem get_chat_load_spec_witness :
    (get_chat false [⟨1, "t".data, "m".data,
        [⟨"user".data, "q".data⟩, ⟨"assistant".data, "r".data⟩]⟩]
      sessionA 2 = (.notFound, sessionA)) ∧
    (get_chat true [⟨1, "t".data, "m".data,
        [⟨"user".data, "q".data⟩, ⟨"assistant".data, "r".data⟩]⟩]
      sessionA 1 = (.notFound, sessionA)) ∧
    ((get_chat false [⟨1, "t".data, "m".data,
        [⟨"user".data, "q".data⟩, ⟨"assistant".data, "r".data⟩]⟩]
      sessionA 1).1
        = .ok ⟨1, "t".data, "m".data,
            [⟨"user".data, "q".data⟩, ⟨"assistant".data, "r".data⟩]⟩ ∧
     (get_chat false [⟨1, "t".data, "m".data,
        [⟨"user".data, "q".data⟩, ⟨"assistant".data, "r".data⟩]⟩]
      sessionA 1).2
        = ⟨(([⟨"user".data, "q".data⟩, ⟨"assistant".data, "r".data⟩] : List StoredMsg).map
              (fun m => Msg.mk m.role m.content)),
           sessionA.current_model, some 1⟩ ∧
     (get_chat false [⟨1, "t".data, "m".data,
        [⟨"user".data, "q".data⟩, ⟨"assistant".data, "r".data⟩]⟩]
      sessionA 1).2.chat_history.length
        = ([⟨"user".data, "q".data⟩, ⟨"assistant".data, "r".data⟩] : List StoredMsg).length) :=
  ⟨(get_chat_load_spec false [⟨1, "t".data, "m".data,
      [⟨"user".data, "q".data⟩, ⟨"assistant".data, "r".data⟩]⟩] sessionA 2).1
      (by decide),
   (get_chat_load_spec true [⟨1, "t".data, "m".data,
      [⟨"user".data, "q".data⟩, ⟨"assistant".data, "r".data⟩]⟩] sessionA 1).2.1 rfl,
   (get_chat_load_spec false [⟨1, "t".data, "m".data,
      [⟨"user".data, "q".data⟩, ⟨"assistant".data, "r".data⟩]⟩] sessionA 1).2.2
      ⟨1, "t".data, "m".data,
        [⟨"user".data, "q".data⟩, ⟨"assistant".data, "r".data⟩]⟩ (by decide)⟩

/-! C8 -/

/-- C8: a successful delete resets the session (empty history, no active
chat, same selected model) exactly when the deleted id is the session's
active chat; deleting any other chat leaves the session exactly as it was. -/
theorem delete_chat_session_reset (s : SessionState) (chat_id : Nat) :
    (s.current_chat_id = some chat_id →
      delete_chat true s chat_id = (.ok, ⟨[], s.current_model, none⟩)) ∧
    (s.current_chat_id ≠ some chat_id →
      delete_chat true s chat_id = (.ok, s)) := by
  constructor
  · intro h
    simp [delete_chat, h]
  · intro h
    simp [delete_chat, h]

/-- C8 witness: deleting the active chat 5 resets the session; deleting chat 6
while 5 is active leaves the session untouched. -/
theorem delete_chat_session_reset_witness :
    (delete_chat true ⟨[⟨"user".data, "q".data⟩], "m".data, some 5⟩ 5
      = (.ok, ⟨[], ("m".data : PyStr), none⟩)) ∧
    (delete_chat true ⟨[⟨"user".data, "q".data⟩], "m".data, some 5⟩ 6
      = (.ok, ⟨[⟨"user".data, "q".data⟩], "m".data, some 5⟩)) :=
  ⟨(delete_chat_session_reset ⟨[⟨"user".data, "q".data⟩], "m".data, some 5⟩ 5).1 rfl,
   (delete_chat_session_reset ⟨[⟨"user".data, "q".data⟩], "m".data, some 5⟩ 6).2
     (by decide)⟩

/-! C9 -/

/-- C9 counterexample: when the probe raises, the health response is
unhealthy but carries no current_model field, so the selected model is not
included in every case. -/
theorem health_check_exception_omits_model :
    ((health_check .transportError ⟨[], "llama2:7b".data, none⟩).status
      = "unhealthy".data) ∧
    (health_check .transportError ⟨[], "llama2:7b".data, none⟩).current_model
      = none := by decide

/-- C9 (amended): a 200 probe answer reports healthy and a non-200 answer
unhealthy, both including the session's selected model; a probe transport
exception reports unhealthy with the exception text but without the selected
model. -/
theorem health_check_spec (probe : TagsResult) (s : SessionState) :
    (probe = .status 200 →
      health_check probe s
        = ⟨"healthy".data, "running".data, some s.current_model, none, 200⟩) ∧
    (∀ code, probe = .status code → code ≠ 200 →
      health_check probe s
        = ⟨"unhealthy".data, "not responding".data, some s.current_model, none, 503⟩) ∧
    (probe = .transportError →
      health_check probe s
        = ⟨"unhealthy".data, "not accessible".data, none, some (), 503⟩) := by
  refine ⟨?_, ?_, ?_⟩
  · intro h
    subst h
    simp [health_check]
  · intro code h hc
    subst h
    simp [health_check, hc]
  · intro h
    subst h
    simp [health_check]

/-- C9 witness: the three probe outcomes on a session whose model is "m". -/
theorem health_check_spec_witness :
    (health_check (.status 200) ⟨[], "m".data, none⟩
      = ⟨"healthy".data, "running".data, some "m".data, none, 200⟩) ∧
    (health_check (.status 500) ⟨[], "m".data, none⟩
      = ⟨"unhealthy".data, "not responding".data, some "m".data, none, 503⟩) ∧
    (health_check .transportError ⟨[], "m".data, none⟩
      = ⟨"unhealthy".data, "not accessible".data, none, some (), 503⟩) :=
  ⟨(health_check_spec (.status 200) ⟨[], "m".data, none⟩).1 rfl,
   (health_check_spec (.status 500) ⟨[], "m".data, none⟩).2.1 500 rfl (by decide),
   (health_check_spec .transportError ⟨[], "m".data, none⟩).2.2 rfl⟩

/-! C10 -/

/-- C10: the store's rename and delete report success for any chat id as long
as no storage exception occurs — even an id matching no stored chat — and the
returned flag is exactly the absence of an exception, independent of the store
contents, so neither the PUT nor the DELETE handler can signal not-found. -/
theorem store_flags_ignore_existence
    (store : Store) (chat_id : Nat) (title : PyStr)
    (habsent : ∀ c ∈ store, c.id ≠ chat_id)
    (htitle : pyStrip title ≠ []) :
    (update_chat false store chat_id (some title)).1 = .ok ∧
    (dbDeleteChat false store chat_id).1 = true ∧
    (∀ s : SessionState, (delete_chat true s chat_id).1 = .ok) ∧
    (∀ (exn : Bool) (st : Store) (i : Nat) (t : PyStr),
      (dbUpdateChatTitle exn st i t).1 = !exn) ∧
    (∀ (exn : Bool) (st : Store) (i : Nat), (dbDeleteChat exn st i).1 = !exn) := by
  refine ⟨?_, ?_, ?_, ?_, ?_⟩
  · simp [update_chat, htitle, dbUpdateChatTitle]
  · simp [dbDeleteChat]
  · intro s
    unfold delete_chat
    by_cases hb : s.current_chat_id = some chat_id
    · simp [hb]
    · simp [hb]
  · intro exn st i t
    cases exn <;> simp [dbUpdateChatTitle]
  · intro exn st i
    cases exn <;> simp [dbDeleteChat]

/-- C10 witness: on an empty store, renaming and deleting chat 99 both
report success. -/
theorem store_flags_ignore_existence_witness :
    (update_chat false [] 99 (some "new".data)).1 = .ok ∧
    (dbDeleteChat false [] 99).1 = true ∧
    (∀ s : SessionState, (delete_chat true s 99).1 = .ok) ∧
    (∀ (exn : Bool) (st : Store) (i : Nat) (t : PyStr),
      (dbUpdateChatTitle exn st i t).1 = !exn) ∧
    (∀ (exn : Bool) (st : Store) (i : Nat), (dbDeleteChat exn st i).1 = !exn) :=
  store_flags_ignore_existence [] 99 "new".data (by decide) (by decide)
